import Mathlib

/-!
Shallow embedding of the cinemist rotation-and-statistics engine
(`functions/index.js`).

The Firestore state touched by the cloud functions is modelled as a `Store`
record.  Collections are association lists keyed by document id; the single
documents `displayPuzzle/current` and `puzzleStats/current` are `Option`s.
The `solvers` dedup markers live in the subcollection
`puzzleStats/current/solvers`; per Firestore semantics, deleting the
`puzzleStats/current` document does *not* delete documents of its
subcollections, so `solvers` is a separate component of the `Store` that is
untouched by `statsRef.delete()`.

`FieldValue.serverTimestamp()` and `new Date()` are modelled by an explicit
`now : Nat` parameter (milliseconds since the epoch), threaded to each
operation.  JavaScript object keys are strings, so counter keys
(`clueIndex`) are `String`.
-/

/-- A JS object used as a string-keyed map (e.g. `clueCounts`), modelled as
an association list; lookup takes the first matching key, update replaces
the first matching binding in place or appends a fresh one. -/
abbrev JMap (α : Type) := List (String × α)

def mapFind {α : Type} : JMap α → String → Option α
  | [], _ => none
  | (k', v) :: rest, k => if k' = k then some v else mapFind rest k

def mapPut {α : Type} : JMap α → String → α → JMap α
  | [], k, v => [(k, v)]
  | (k', v') :: rest, k, v =>
      if k' = k then (k, v) :: rest else (k', v') :: mapPut rest k v

/-- Total of all counter values in a `clueCounts` object. -/
def mapTotal : JMap Nat → Nat
  | [] => 0
  | (_, v) :: rest => v + mapTotal rest

/-! ### MD5 (Node `crypto.createHash('md5')`)

`submitSolution` and `pingPresence` identify a caller by
`createHash('md5').update(ip).digest('hex')`.  The algorithm is embedded
over `Nat` with explicit `% 2 ^ 32`. -/

def mask32 : Nat := 4294967295

/-- UTF-8 encoding of one code point (Node hashes the UTF-8 bytes). -/
def utf8Bytes (c : Char) : List Nat :=
  let n := c.toNat
  if n < 128 then [n]
  else if n < 2048 then [192 + n / 64, 128 + n % 64]
  else if n < 65536 then [224 + n / 4096, 128 + n / 64 % 64, 128 + n % 64]
  else [240 + n / 262144, 128 + n / 4096 % 64, 128 + n / 64 % 64, 128 + n % 64]

def strBytes (s : String) : List Nat :=
  s.data.foldr (fun c acc => utf8Bytes c ++ acc) []

/-- `w` bytes of `v`, little endian. -/
def leBytes (w : Nat) (v : Nat) : List Nat :=
  (List.range w).map (fun i => v / 2 ^ (8 * i) % 256)

/-- MD5 padding: append `0x80`, zeros to 56 mod 64, then the bit length as
8 little-endian bytes. -/
def md5Pad (msg : List Nat) : List Nat :=
  let len := msg.length
  let k := (56 + 64 - (len + 1) % 64) % 64
  msg ++ [128] ++ List.replicate k 0 ++ leBytes 8 (len * 8 % 2 ^ 64)

/-- Group bytes into 32-bit little-endian words. -/
def toWords : List Nat → List Nat
  | b0 :: b1 :: b2 :: b3 :: rest =>
      (b0 + b1 * 256 + b2 * 65536 + b3 * 16777216) :: toWords rest
  | _ => []

/-- Group words into 16-word blocks. -/
def toBlocks : List Nat → List (List Nat)
  | w0 :: w1 :: w2 :: w3 :: w4 :: w5 :: w6 :: w7 ::
    w8 :: w9 :: w10 :: w11 :: w12 :: w13 :: w14 :: w15 :: rest =>
      [w0, w1, w2, w3, w4, w5, w6, w7, w8, w9, w10, w11, w12, w13, w14, w15]
        :: toBlocks rest
  | _ => []

def rotl32 (x s : Nat) : Nat := (x * 2 ^ s + x / 2 ^ (32 - s)) % 2 ^ 32

/-- The per-round sine-derived constants `K[i] = floor(2^32 * abs(sin(i+1)))`. -/
def md5K : List Nat :=
  [3614090360, 3905402710, 606105819, 3250441966, 4118548399, 1200080426,
   2821735955, 4249261313, 1770035416, 2336552879, 4294925233, 2304563134,
   1804603682, 4254626195, 2792965006, 1236535329, 4129170786, 3225465664,
   643717713, 3921069994, 3593408605, 38016083, 3634488961, 3889429448,
   568446438, 3275163606, 4107603335, 1163531501, 2850285829, 4243563512,
   1735328473, 2368359562, 4294588738, 2272392833, 1839030562, 4259657740,
   2763975236, 1272893353, 4139469664, 3200236656, 681279174, 3936430074,
   3572445317, 76029189, 3654602809, 3873151461, 530742520, 3299628645,
   4096336452, 1126891415, 2878612391, 4237533241, 1700485571, 2399980690,
   4293915773, 2240044497, 1873313359, 4264355552, 2734768916, 1309151649,
   4149444226, 3174756917, 718787259, 3951481745]

/-- Per-round left-rotation amounts. -/
def md5S : List Nat :=
  [7, 12, 17, 22, 7, 12, 17, 22, 7, 12, 17, 22, 7, 12, 17, 22,
   5, 9, 14, 20, 5, 9, 14, 20, 5, 9, 14, 20, 5, 9, 14, 20,
   4, 11, 16, 23, 4, 11, 16, 23, 4, 11, 16, 23, 4, 11, 16, 23,
   6, 10, 15, 21, 6, 10, 15, 21, 6, 10, 15, 21, 6, 10, 15, 21]

/-- Round function (F, G, H, I by round quarter). -/
def md5F (i b c d : Nat) : Nat :=
  if i < 16 then (b &&& c) ||| ((b ^^^ mask32) &&& d)
  else if i < 32 then (d &&& b) ||| ((d ^^^ mask32) &&& c)
  else if i < 48 then b ^^^ c ^^^ d
  else c ^^^ (b ||| (d ^^^ mask32))

/-- Message-word index for round `i`. -/
def md5G (i : Nat) : Nat :=
  if i < 16 then i
  else if i < 32 then (5 * i + 1) % 16
  else if i < 48 then (3 * i + 5) % 16
  else 7 * i % 16

def md5Step (m : List Nat) (st : Nat × Nat × Nat × Nat) (i : Nat) :
    Nat × Nat × Nat × Nat :=
  match st with
  | (a, b, c, d) =>
    let f := (md5F i b c d + a + md5K.getD i 0 + m.getD (md5G i) 0) % 2 ^ 32
    (d, (b + rotl32 f (md5S.getD i 0)) % 2 ^ 32, b, c)

def md5Block (st : Nat × Nat × Nat × Nat) (m : List Nat) :
    Nat × Nat × Nat × Nat :=
  match st with
  | (a0, b0, c0, d0) =>
    match (List.range 64).foldl (md5Step m) (a0, b0, c0, d0) with
    | (a, b, c, d) =>
      ((a0 + a) % 2 ^ 32, (b0 + b) % 2 ^ 32, (c0 + c) % 2 ^ 32,
       (d0 + d) % 2 ^ 32)

def md5Digest (msg : List Nat) : Nat × Nat × Nat × Nat :=
  (toBlocks (toWords (md5Pad msg))).foldl md5Block
    (1732584193, 4023233417, 2562383102, 271733878)

def hexDigit (n : Nat) : Char :=
  if n < 10 then Char.ofNat (48 + n) else Char.ofNat (87 + n)

def byteHex (b : Nat) : List Char := [hexDigit (b / 16), hexDigit (b % 16)]

/-- `createHash('md5').update(s).digest('hex')`. -/
def md5Hex (s : String) : String :=
  match md5Digest (strBytes s) with
  | (a, b, c, d) =>
    let bytes := leBytes 4 a ++ leBytes 4 b ++ leBytes 4 c ++ leBytes 4 d
    String.mk (bytes.foldr (fun b acc => byteHex b ++ acc) [])

/-! ### Clock/calendar adapter: `getTodayISTBounds` -/

def msPerDay : Nat := 86400000

/-- `5.5 * 60 * 60 * 1000`. -/
def istOffsetMs : Nat := 19800000

structure ISTBounds where
  start : Nat
  /-- the source's `end` field (a Lean keyword, hence renamed) -/
  dayEnd : Nat
  istNow : Nat
deriving DecidableEq

/-- `getTodayISTBounds` from `functions/index.js`.  A JS `Date` is its epoch
millisecond value; `new Date(now.getTime() + istOffset)` adds the offset,
`setUTCHours(0,0,0,0)` floors to the UTC day and `setUTCHours(23,59,59,999)`
is that floor plus `86400000 - 1`. -/
def getTodayISTBounds (nowMs : Nat) : ISTBounds :=
  let istNow := nowMs + istOffsetMs
  let startOfDay := istNow / msPerDay * msPerDay
  let endOfDay := startOfDay + (msPerDay - 1)
  { start := startOfDay, dayEnd := endOfDay, istNow := istNow }

/-- The adapter the spec describes (§4.1): apply the fixed offset, take
23:59:59.999 of the resulting civil day, and express it *back* as an
absolute instant (i.e. subtract the offset again). -/
def specDayBoundsEnd (nowMs : Nat) : Nat :=
  let civil := nowMs + istOffsetMs
  let dayStart := civil / msPerDay * msPerDay
  dayStart + (msPerDay - 1) - istOffsetMs

/-! ### Firestore state -/

/-- Payload fields of a puzzle as carried through the pipeline. -/
structure Puzzle where
  movieName : String
  submittedBy : String
  clues : List String
  createdAt : Nat
  approvedAt : Nat
deriving DecidableEq

/-- A document of the `approvedPuzzles` collection. -/
structure ApprovedEntry where
  id : String
  puzzle : Puzzle
deriving DecidableEq

/-- The `displayPuzzle/current` document. -/
structure DisplayDoc where
  puzzle : Puzzle
  displayedAt : Nat
  /-- `expiryDate?` may be missing on old records (`puzzleData.expiryDate?.toDate()`) -/
  expiryDate : Option Nat
  sourceId : String
deriving DecidableEq

/-- The `puzzleStats/current` document; `clueCounts` may be absent
(`if (!stats.clueCounts) ...`). -/
structure StatsDoc where
  clueCounts : Option (JMap Nat)
deriving DecidableEq

/-- A dedup marker in `puzzleStats/current/solvers`. -/
structure SolverDoc where
  solvedAt : Nat
  clueIndex : String
deriving DecidableEq

/-- A document of the `historyPuzzles` collection: the spread display doc
plus `finalStats` (absent on entries written by the midnight trigger) and
`movedToHistoryAt`. -/
structure HistoryEntry where
  puzzle : Puzzle
  displayedAt : Nat
  expiryDate : Option Nat
  sourceId : String
  finalStats : Option StatsDoc
  movedToHistoryAt : Nat
deriving DecidableEq

/-- A document of the `historyStats` collection. -/
structure HistoryStatsEntry where
  stats : StatsDoc
  puzzleId : String
  archivedAt : Nat
deriving DecidableEq

/-- The Firestore state touched by the functions.  `solvers` is the
`puzzleStats/current/solvers` subcollection: deleting the parent document
(`statsRef.delete()`) leaves it untouched. -/
structure Store where
  display : Option DisplayDoc
  approved : List ApprovedEntry
  history : List HistoryEntry
  historyStats : JMap HistoryStatsEntry
  stats : Option StatsDoc
  solvers : JMap SolverDoc
  activeUsers : JMap Nat
deriving DecidableEq

def emptyStore : Store :=
  { display := none, approved := [], history := [], historyStats := [],
    stats := none, solvers := [], activeUsers := [] }

/-! ### Rotation engine -/

/-- `.orderBy('createdAt', 'asc').limit(1)`: Firestore returns the entry
with the smallest `createdAt`, ties broken by ascending document id. -/
def entryOlder (a b : ApprovedEntry) : Bool :=
  if a.puzzle.createdAt < b.puzzle.createdAt then true
  else if b.puzzle.createdAt < a.puzzle.createdAt then false
  else decide (a.id < b.id)

def dequeueOldest : List ApprovedEntry → Option ApprovedEntry
  | [] => none
  | e :: rest =>
      some (rest.foldl (fun best x => if entryOlder x best then x else best) e)

/-- The history document `{...currentPuzzle, finalStats, movedToHistoryAt}`
(`finalStats := none` when the writer spreads no stats field). -/
def mkHistoryEntry (cur : DisplayDoc) (finalStats : Option StatsDoc)
    (now : Nat) : HistoryEntry :=
  { puzzle := cur.puzzle, displayedAt := cur.displayedAt,
    expiryDate := cur.expiryDate, sourceId := cur.sourceId,
    finalStats := finalStats, movedToHistoryAt := now }

/-- The new `displayPuzzle/current` document written by a rotation. -/
def mkDisplayDoc (e : ApprovedEntry) (now : Nat) : DisplayDoc :=
  { puzzle := e.puzzle, displayedAt := now,
    expiryDate := some (getTodayISTBounds now).dayEnd, sourceId := e.id }

/-- First phase of `rotatePuzzleLogic`: if a display doc exists, read the
stats (`{}` when absent), append the history entry, and if the stats doc
exists also write `historyStats` (doc id `displayDoc.id`, i.e. `"current"`)
and delete `puzzleStats/current`.  Firestore: this delete does not touch
the `solvers` subcollection. -/
def archiveCurrent (now : Nat) (st : Store) : Store :=
  match st.display with
  | none => st
  | some cur =>
    let stats : StatsDoc := st.stats.getD { clueCounts := none }
    let stA :=
      { st with history := st.history ++ [mkHistoryEntry cur (some stats) now] }
    match st.stats with
    | some s =>
      { stA with
        historyStats := mapPut stA.historyStats "current"
          { stats := s, puzzleId := "current", archivedAt := now },
        stats := none }
    | none => stA

/-- `rotatePuzzleLogic` from `functions/index.js` (returns `null` on every
path, so only the store is modelled). -/
def rotatePuzzleLogic (now : Nat) (st : Store) : Store :=
  let st1 := archiveCurrent now st
  match dequeueOldest st1.approved with
  | none => st1
  | some e =>
    { st1 with
      display := some (mkDisplayDoc e now),
      approved := st1.approved.filter (fun q => q.id ≠ e.id) }

/-- The midnight trigger `rotateDailyPuzzle`: its own inline copy of the
rotation, which archives `{...currentPuzzle, movedToHistoryAt}` with *no*
`finalStats` and never reads, archives or deletes `puzzleStats/current`. -/
def rotateDailyPuzzle (now : Nat) (st : Store) : Store :=
  let st1 :=
    match st.display with
    | none => st
    | some cur =>
      { st with history := st.history ++ [mkHistoryEntry cur none now] }
  match dequeueOldest st1.approved with
  | none => st1
  | some e =>
    { st1 with
      display := some (mkDisplayDoc e now),
      approved := st1.approved.filter (fun q => q.id ≠ e.id) }

/-- The expiry gate shared verbatim by `checkAndRotatePuzzle`,
`onPuzzleApproved` and `checkAndRotatePublic`: rotate when the display doc
is missing, has no `expiryDate`, or `now > expiryDate`. -/
def displayExpired (now : Nat) (display : Option DisplayDoc) : Bool :=
  match display with
  | none => true
  | some d =>
    match d.expiryDate with
    | none => true
    | some e => decide (now > e)

/-- The hourly fallback trigger `checkAndRotatePuzzle`. -/
def checkAndRotatePuzzle (now : Nat) (st : Store) : Store :=
  if displayExpired now st.display then rotatePuzzleLogic now st else st

/-- The on-enqueue trigger `onPuzzleApproved` (the freshly created approved
document is already part of `st.approved`). -/
def onPuzzleApproved (now : Nat) (st : Store) : Store :=
  if displayExpired now st.display then rotatePuzzleLogic now st else st

structure RotateResponse where
  rotated : Bool
deriving DecidableEq

/-- The public endpoint `checkAndRotatePublic`: after calling
`rotatePuzzleLogic` it answers `{rotated: true}` unconditionally, and
`{rotated: false}` when the gate says the display is still valid. -/
def checkAndRotatePublic (now : Nat) (st : Store) : Store × RotateResponse :=
  if displayExpired now st.display then
    (rotatePuzzleLogic now st, { rotated := true })
  else
    (st, { rotated := false })

/-! ### Stats tracker and presence -/

structure SubmitResponse where
  success : Bool
deriving DecidableEq

/-- `if (!stats.clueCounts) stats.clueCounts = {}`: the counters object of
a stats doc, defaulting to empty when the field is missing. -/
def jsClueCounts (stats : StatsDoc) : JMap Nat :=
  match stats.clueCounts with
  | none => []
  | some m => m

/-- `if (!stats.clueCounts[clueIndex]) stats.clueCounts[clueIndex] = 0;
stats.clueCounts[clueIndex]++` — a missing *or zero* entry (both falsy in
JS) is first set to `0`, then the entry is incremented. -/
def bumpClue (cc : JMap Nat) (k : String) : JMap Nat :=
  let cc1 :=
    match mapFind cc k with
    | none => mapPut cc k 0
    | some 0 => mapPut cc k 0
    | some _ => cc
  mapPut cc1 k ((mapFind cc1 k).getD 0 + 1)

/-- The transaction body of `submitSolution`: if the caller's solver doc
exists, return with no write; otherwise bump `clueCounts[clueIndex]` of the
stats doc (default `{ clueCounts: {} }` when absent) and create the solver
doc, in the same atomic unit. -/
def submitSolutionTxn (ipHash clueIndex : String) (now : Nat)
    (st : Store) : Store :=
  match mapFind st.solvers ipHash with
  | some _ => st
  | none =>
    let stats := st.stats.getD { clueCounts := some [] }
    let cc := bumpClue (jsClueCounts stats) clueIndex
    { st with
      stats := some { clueCounts := some cc },
      solvers := mapPut st.solvers ipHash
        { solvedAt := now, clueIndex := clueIndex } }

/-- `submitSolution`: the caller identity is
`md5(context.rawRequest.ip || 'unknown')`; the response is `{success: true}`
on every non-throwing path, dedup hit or not. -/
def submitSolution (ip : Option String) (clueIndex : String) (now : Nat)
    (st : Store) : Store × SubmitResponse :=
  let ipHash := md5Hex (ip.getD "unknown")
  (submitSolutionTxn ipHash clueIndex now st, { success := true })

/-- `pingPresence`: upsert `activeUsers/<md5(ip)>` with `lastActive = now`. -/
def pingPresence (ip : Option String) (now : Nat) (st : Store) :
    Store × SubmitResponse :=
  let ipHash := md5Hex (ip.getD "unknown")
  ({ st with activeUsers := mapPut st.activeUsers ipHash now },
   { success := true })

/-! ### Derived observations used by the theorems -/

/-- The total of all solve counters currently stored. -/
def statsTotal (st : Store) : Nat :=
  match st.stats with
  | none => 0
  | some s =>
    match s.clueCounts with
    | none => 0
    | some m => mapTotal m

/-- The stored count for one clue key (`0` when absent). -/
def clueCountGet (st : Store) (k : String) : Nat :=
  match st.stats with
  | none => 0
  | some s =>
    match s.clueCounts with
    | none => 0
    | some m => (mapFind m k).getD 0

/-- A sequence of `submitSolution` transactions by one participant identity,
each with a caller-chosen clue key and timestamp. -/
def applySubmits (p : String) (calls : List (String × Nat)) (st : Store) :
    Store :=
  calls.foldl (fun s c => submitSolutionTxn p c.1 c.2 s) st

/-- A sequence of full `submitSolution` calls arriving from one IP. -/
def applySubmitsIp (ip : Option String) (calls : List (String × Nat))
    (st : Store) : Store :=
  calls.foldl (fun s c => (submitSolution ip c.1 c.2 s).1) st

/-! ### Concrete stores used as test inputs -/

def pzA : Puzzle := ⟨"A", "alice", ["c1", "c2", "c3"], 1, 4⟩

def pzB : Puzzle := ⟨"B", "bob", ["d1", "d2", "d3"], 2, 5⟩

def pzC : Puzzle := ⟨"C", "carol", ["e1", "e2", "e3"], 3, 6⟩

/-- Display occupied by `pzA`, one solve counted for participant `"P"`,
`pzB` waiting in the queue. -/
def stCycle : Store :=
  { display := some ⟨pzA, 10, some 99, "a"⟩,
    approved := [⟨"b", pzB⟩],
    history := [], historyStats := [],
    stats := some ⟨some [("0", 1)]⟩,
    solvers := [("P", ⟨5, "0"⟩)],
    activeUsers := [] }

/-- Two queued puzzles behind an occupied display. -/
def stTwoQueued : Store :=
  { stCycle with approved := [⟨"c", pzC⟩, ⟨"b", pzB⟩] }

/-- An expired display (`expiryDate = 50 < now = 100`) with an empty queue. -/
def stExpiredEmptyQueue : Store :=
  { emptyStore with display := some ⟨pzA, 10, some 50, "a"⟩ }

/-- A store whose `solvers` set already holds the marker of the anonymous
(`ip` missing, hashed `'unknown'`) caller. -/
def stMarkedUnknown : Store :=
  { emptyStore with solvers := [(md5Hex "unknown", ⟨1, "0"⟩)] }

/-! ### Map lemmas -/

/-- Cross-check of the embedded MD5 against the RFC 1321 test value. -/
theorem md5Hex_matches_abc :
    md5Hex "abc" = "900150983cd24fb0d6963f7d28e17f72" := by decide

theorem mapFind_mapPut_self {α : Type} (m : JMap α) (k : String) (v : α) :
    mapFind (mapPut m k v) k = some v := by
  induction m with
  | nil => simp [mapPut, mapFind]
  | cons hd tl ih =>
    obtain ⟨k', v'⟩ := hd
    by_cases h : k' = k
    · simp [mapPut, mapFind, h]
    · simp [mapPut, mapFind, h, ih]

theorem mapTotal_mapPut (m : JMap Nat) (k : String) (v : Nat) :
    mapTotal (mapPut m k v) + (mapFind m k).getD 0 = mapTotal m + v := by
  induction m with
  | nil => simp [mapPut, mapFind, mapTotal]
  | cons hd tl ih =>
    obtain ⟨k', v'⟩ := hd
    by_cases h : k' = k
    · simp [mapPut, mapFind, h, mapTotal]
      omega
    · simp [mapPut, mapFind, h, mapTotal]
      omega

theorem bumpClue_find (cc : JMap Nat) (k : String) :
    mapFind (bumpClue cc k) k = some ((mapFind cc k).getD 0 + 1) := by
  unfold bumpClue
  cases h : mapFind cc k with
  | none => simp [h, mapFind_mapPut_self]
  | some n =>
    cases n with
    | zero => simp [h, mapFind_mapPut_self]
    | succ m => simp [h, mapFind_mapPut_self]

theorem bumpClue_total (cc : JMap Nat) (k : String) :
    mapTotal (bumpClue cc k) = mapTotal cc + 1 := by
  unfold bumpClue
  cases h : mapFind cc k with
  | none =>
    have h1 := mapTotal_mapPut cc k 0
    have h2 := mapTotal_mapPut (mapPut cc k 0) k
      ((mapFind (mapPut cc k 0) k).getD 0 + 1)
    simp [h, mapFind_mapPut_self] at h1 h2 ⊢
    omega
  | some n =>
    cases n with
    | zero =>
      have h1 := mapTotal_mapPut cc k 0
      have h2 := mapTotal_mapPut (mapPut cc k 0) k
        ((mapFind (mapPut cc k 0) k).getD 0 + 1)
      simp [h, mapFind_mapPut_self] at h1 h2 ⊢
      omega
    | succ m =>
      have h2 := mapTotal_mapPut cc k ((mapFind cc k).getD 0 + 1)
      simp [h] at h2 ⊢
      omega

/-! ### submitSolution lemmas -/

theorem statsTotal_eq_jsClueCounts (st : Store) :
    mapTotal (jsClueCounts (st.stats.getD { clueCounts := some [] })) =
      statsTotal st := by
  cases h : st.stats with
  | none => simp [h, jsClueCounts, statsTotal, mapTotal]
  | some s =>
    cases hc : s.clueCounts with
    | none => simp [h, hc, jsClueCounts, statsTotal, mapTotal]
    | some m => simp [h, hc, jsClueCounts, statsTotal]

theorem clueCountGet_eq_jsClueCounts (st : Store) (k : String) :
    (mapFind (jsClueCounts (st.stats.getD { clueCounts := some [] })) k).getD 0 =
      clueCountGet st k := by
  cases h : st.stats with
  | none => simp [h, jsClueCounts, clueCountGet, mapFind]
  | some s =>
    cases hc : s.clueCounts with
    | none => simp [h, hc, jsClueCounts, clueCountGet, mapFind]
    | some m => simp [h, hc, jsClueCounts, clueCountGet]

theorem submitTxn_marked (p d : String) (t : Nat) (st : Store)
    (h : (mapFind st.solvers p).isSome) :
    submitSolutionTxn p d t st = st := by
  unfold submitSolutionTxn
  cases hm : mapFind st.solvers p with
  | none => rw [hm] at h; simp at h
  | some s => simp

theorem submitTxn_fresh (p d : String) (t : Nat) (st : Store)
    (h : mapFind st.solvers p = none) :
    statsTotal (submitSolutionTxn p d t st) = statsTotal st + 1
    ∧ clueCountGet (submitSolutionTxn p d t st) d = clueCountGet st d + 1
    ∧ mapFind (submitSolutionTxn p d t st).solvers p = some ⟨t, d⟩ := by
  unfold submitSolutionTxn
  rw [h]
  refine ⟨?_, ?_, ?_⟩
  · simp only [statsTotal]
    rw [bumpClue_total, statsTotal_eq_jsClueCounts]
    rfl
  · simp only [clueCountGet]
    rw [bumpClue_find]
    simp only [Option.getD_some]
    rw [clueCountGet_eq_jsClueCounts]
    rfl
  · exact mapFind_mapPut_self _ _ _

theorem applySubmits_marked (p : String) (calls : List (String × Nat))
    (st : Store) (h : (mapFind st.solvers p).isSome) :
    applySubmits p calls st = st := by
  induction calls generalizing st with
  | nil => rfl
  | cons c rest ih =>
    show applySubmits p rest (submitSolutionTxn p c.1 c.2 st) = st
    rw [submitTxn_marked p c.1 c.2 st h]
    exact ih st h

theorem applySubmits_total_le (p : String) (calls : List (String × Nat))
    (st : Store) :
    statsTotal (applySubmits p calls st) ≤ statsTotal st + 1 := by
  cases hm : mapFind st.solvers p with
  | some s =>
    rw [applySubmits_marked p calls st (by simp [hm])]
    omega
  | none =>
    cases calls with
    | nil => simp [applySubmits]
    | cons c rest =>
      show statsTotal (applySubmits p rest (submitSolutionTxn p c.1 c.2 st)) ≤
        statsTotal st + 1
      obtain ⟨htot, _, hmark⟩ := submitTxn_fresh p c.1 c.2 st hm
      rw [applySubmits_marked p rest _ (by simp [hmark]), htot]

/-! ### Rotation lemmas -/

theorem archiveCurrent_spec (now : Nat) (st : Store) :
    (archiveCurrent now st).approved = st.approved
    ∧ (archiveCurrent now st).display = st.display
    ∧ (archiveCurrent now st).solvers = st.solvers
    ∧ (archiveCurrent now st).history =
        st.history ++
          (match st.display with
           | none => []
           | some cur =>
             [mkHistoryEntry cur (some (st.stats.getD { clueCounts := none }))
               now]) := by
  cases hd : st.display with
  | none => simp [archiveCurrent, hd]
  | some cur =>
    cases hs : st.stats with
    | none => simp [archiveCurrent, hd, hs]
    | some s => simp [archiveCurrent, hd, hs]

theorem rotate_installed (now : Nat) (st : Store) (e : ApprovedEntry)
    (h : dequeueOldest st.approved = some e) :
    (rotatePuzzleLogic now st).display = some (mkDisplayDoc e now)
    ∧ (rotatePuzzleLogic now st).approved =
        st.approved.filter (fun q => q.id ≠ e.id)
    ∧ (rotatePuzzleLogic now st).solvers = st.solvers
    ∧ (rotatePuzzleLogic now st).history =
        st.history ++
          (match st.display with
           | none => []
           | some cur =>
             [mkHistoryEntry cur (some (st.stats.getD { clueCounts := none }))
               now]) := by
  obtain ⟨ha, hdisp, hsolv, hhist⟩ := archiveCurrent_spec now st
  simp only [rotatePuzzleLogic]
  rw [ha, h]
  exact ⟨rfl, by simp [ha], by simp [hsolv], by simp [hhist]⟩

theorem rotate_queue_empty_display (now : Nat) (st : Store)
    (h : st.approved = []) :
    (rotatePuzzleLogic now st).display = st.display := by
  obtain ⟨ha, hdisp, _, _⟩ := archiveCurrent_spec now st
  simp only [rotatePuzzleLogic]
  rw [ha, h]
  simp [dequeueOldest, hdisp]

/-! ### Claim theorems -/

/-- C1: for every sequence of `submitSolution` transactions with the same
participant identity and any clue discriminators, the total counter
increment attributable to that participant within one display cycle is at
most 1; and once the participant's dedup marker exists, no later call from
that participant changes any counter (the transaction returns without a
write). -/
theorem submitSolution_at_most_one_count :
    (∀ (p : String) (calls : List (String × Nat)) (st : Store),
      statsTotal (applySubmits p calls st) ≤ statsTotal st + 1)
    ∧ (∀ (p d : String) (t : Nat) (st : Store),
        (mapFind st.solvers p).isSome → submitSolutionTxn p d t st = st) :=
  ⟨applySubmits_total_le, submitTxn_marked⟩

/-- Witness for C1 at a concrete input: three submissions by participant
`"P"` bump the total by exactly one, and a call arriving once the marker
`"P"` exists leaves the store untouched. -/
theorem submitSolution_at_most_one_count_witness :
    statsTotal (applySubmits "P" [("0", 1), ("1", 2), ("0", 3)] emptyStore) ≤
      statsTotal emptyStore + 1
    ∧ ((mapFind stCycle.solvers "P").isSome
        ∧ submitSolutionTxn "P" "1" 200 stCycle = stCycle) :=
  ⟨submitSolution_at_most_one_count.1 "P" [("0", 1), ("1", 2), ("0", 3)]
      emptyStore,
   by decide,
   submitSolution_at_most_one_count.2 "P" "1" 200 stCycle (by decide)⟩

/-- C2: when `rotatePuzzleLogic` promotes a dequeued item (the FIFO head
`e`), the new display holds `e`, no entry with `e`'s id remains in the
queue, and exactly one new history entry exists, containing the previous
display item together with its stats snapshot — or no new entry if the
display was previously absent. -/
theorem rotatePuzzleLogic_dequeues_and_archives (now : Nat) (st : Store)
    (e : ApprovedEntry) (h : dequeueOldest st.approved = some e) :
    (rotatePuzzleLogic now st).display = some (mkDisplayDoc e now)
    ∧ (∀ q ∈ (rotatePuzzleLogic now st).approved, q.id ≠ e.id)
    ∧ (rotatePuzzleLogic now st).history =
        st.history ++
          (match st.display with
           | none => []
           | some cur =>
             [mkHistoryEntry cur (some (st.stats.getD { clueCounts := none }))
               now]) := by
  obtain ⟨hdisp, happr, _, hhist⟩ := rotate_installed now st e h
  refine ⟨hdisp, ?_, hhist⟩
  intro q hq
  rw [happr] at hq
  have := List.of_mem_filter hq
  simpa using this

/-- Witness for C2: rotating `stTwoQueued` (display `pzA`, queue
`[C(t=3), B(t=2)]`) promotes `B`, drops `"b"` from the queue and archives
`pzA` with its stats. -/
theorem rotatePuzzleLogic_dequeues_and_archives_witness :
    dequeueOldest stTwoQueued.approved = some ⟨"b", pzB⟩
    ∧ ((rotatePuzzleLogic 100 stTwoQueued).display =
          some (mkDisplayDoc ⟨"b", pzB⟩ 100)
        ∧ (∀ q ∈ (rotatePuzzleLogic 100 stTwoQueued).approved, q.id ≠ "b")
        ∧ (rotatePuzzleLogic 100 stTwoQueued).history =
            stTwoQueued.history ++
              (match stTwoQueued.display with
               | none => []
               | some cur =>
                 [mkHistoryEntry cur
                   (some (stTwoQueued.stats.getD { clueCounts := none }))
                   100])) :=
  ⟨by decide,
   rotatePuzzleLogic_dequeues_and_archives 100 stTwoQueued ⟨"b", pzB⟩
     (by decide)⟩

/-- C3: the claim says the stored day-end expiry is the end of the IST
civil day *expressed back as an absolute instant*.  The code applies the
+5:30 offset but never subtracts it back, so for every instant the value
it stores exceeds the absolute civil-day end by exactly the offset; at
`now = 1700000000000` (2023-11-14T22:13:20Z) the code yields
2023-11-15T23:59:59.999 *UTC* instead of 23:59:59.999 *IST*
(2023-11-15T18:29:59.999Z), 5.5 hours late. -/
theorem getTodayISTBounds_end_shifted :
    (∀ n : Nat, (getTodayISTBounds n).dayEnd = specDayBoundsEnd n + istOffsetMs)
    ∧ (getTodayISTBounds 1700000000000).dayEnd = 1700092799999
    ∧ specDayBoundsEnd 1700000000000 = 1700072999999
    ∧ (getTodayISTBounds 1700000000000).dayEnd ≠ specDayBoundsEnd 1700000000000 := by
  refine ⟨?_, by decide, by decide, by decide⟩
  intro n
  simp only [getTodayISTBounds, specDayBoundsEnd, istOffsetMs, msPerDay]
  omega

/-- C4: `statsRef.delete()` deletes only the `puzzleStats/current`
document; in Firestore, deleting a document does not delete its
subcollections, so the `solvers` dedup markers survive the rotation.
Consequently a participant who contributed in the previous cycle is still
blocked in the next cycle, contrary to the claim: rotating `stCycle`
clears the stats doc but keeps `"P"`'s marker, and `"P"`'s next-cycle
submission is a silent no-op (total stays `0` instead of becoming `1`). -/
theorem rotation_leaves_solver_markers :
    (rotatePuzzleLogic 100 stCycle).stats = none
    ∧ (rotatePuzzleLogic 100 stCycle).solvers = [("P", ⟨5, "0"⟩)]
    ∧ submitSolutionTxn "P" "1" 200 (rotatePuzzleLogic 100 stCycle) =
        rotatePuzzleLogic 100 stCycle
    ∧ statsTotal
        (submitSolutionTxn "P" "1" 200 (rotatePuzzleLogic 100 stCycle)) = 0 := by
  decide

/-- C5 counterexample: the exact-schedule (midnight) trigger's transition
is *not* equal to `rotatePuzzleLogic` — on a state with a live display and
stats it archives without the stats snapshot and leaves the stats doc in
place. -/
theorem rotateDailyPuzzle_differs_cex :
    rotateDailyPuzzle 100 stCycle ≠ rotatePuzzleLogic 100 stCycle := by
  decide

/-- C5 (amended): the fallback, on-enqueue and public triggers all perform
the `rotatePuzzleLogic` transition behind the identical expiry gate, but
the midnight trigger runs its own inline copy that never touches the live
stats or the stats archive and, when a display exists, archives the
outgoing item with no stats snapshot; the two transitions coincide exactly
when the display is absent. -/
theorem rotateDailyPuzzle_skips_stats :
    (∀ (now : Nat) (st : Store), st.display = none →
      rotateDailyPuzzle now st = rotatePuzzleLogic now st)
    ∧ (∀ (now : Nat) (st : Store),
        (rotateDailyPuzzle now st).stats = st.stats
        ∧ (rotateDailyPuzzle now st).historyStats = st.historyStats)
    ∧ (∀ (now : Nat) (st : Store) (cur : DisplayDoc), st.display = some cur →
        (rotateDailyPuzzle now st).history =
          st.history ++ [mkHistoryEntry cur none now])
    ∧ (∀ (now : Nat) (st : Store),
        (checkAndRotatePublic now st).1 = checkAndRotatePuzzle now st
        ∧ onPuzzleApproved now st = checkAndRotatePuzzle now st) := by
  refine ⟨?_, ?_, ?_, ?_⟩
  · intro now st h
    simp only [rotateDailyPuzzle, rotatePuzzleLogic, archiveCurrent, h]
  · intro now st
    cases hd : st.display with
    | none =>
      simp only [rotateDailyPuzzle, hd]
      cases hq : dequeueOldest st.approved with
      | none => simp [hq]
      | some e => simp [hq]
    | some cur =>
      simp only [rotateDailyPuzzle, hd]
      cases hq : dequeueOldest st.approved with
      | none => simp [hq]
      | some e => simp [hq]
  · intro now st cur h
    simp only [rotateDailyPuzzle, h]
    cases hq : dequeueOldest st.approved with
    | none => simp [hq]
    | some e => simp [hq]
  · intro now st
    cases hg : displayExpired now st.display <;>
      simp [checkAndRotatePublic, checkAndRotatePuzzle, onPuzzleApproved, hg]

/-- Witness for C5 (amended) at concrete inputs: on the empty display the
two transitions agree; on `stCycle` the midnight trigger leaves the stats
doc alone and archives `pzA` without a snapshot. -/
theorem rotateDailyPuzzle_skips_stats_witness :
    emptyStore.display = none
    ∧ rotateDailyPuzzle 100 emptyStore = rotatePuzzleLogic 100 emptyStore
    ∧ (rotateDailyPuzzle 100 stCycle).stats = stCycle.stats
    ∧ stCycle.display = some ⟨pzA, 10, some 99, "a"⟩
    ∧ (rotateDailyPuzzle 100 stCycle).history =
        stCycle.history ++ [mkHistoryEntry ⟨pzA, 10, some 99, "a"⟩ none 100] :=
  ⟨rfl,
   rotateDailyPuzzle_skips_stats.1 100 emptyStore rfl,
   (rotateDailyPuzzle_skips_stats.2.1 100 stCycle).1,
   by decide,
   rotateDailyPuzzle_skips_stats.2.2.1 100 stCycle ⟨pzA, 10, some 99, "a"⟩
     (by decide)⟩

/-- C6 counterexample: with the queue empty and the display absent the
public endpoint answers `{rotated: true}`, not `{rotated: false}` (and no
`reason` field exists anywhere in the code); and with the queue empty but
an expired display present, the display slot is *not* left cleared. -/
theorem checkAndRotatePublic_queue_empty_cex :
    (checkAndRotatePublic 100 emptyStore).2 ≠ { rotated := false }
    ∧ (checkAndRotatePublic 100 stExpiredEmptyQueue).1.display ≠ none := by
  decide

/-- C6 (amended): when the queue is empty and the display absent, the
public trigger performs no store mutation but answers `{rotated: true}`
(it reports `rotated: true` whenever the gate passed, regardless of the
queue); and whenever the queue is empty at the dequeue step the display
slot is left exactly as it was — absent stays absent, but an expired
record is not cleared either. -/
theorem checkAndRotatePublic_queue_empty :
    (∀ (now : Nat) (st : Store), st.display = none → st.approved = [] →
      checkAndRotatePublic now st = (st, { rotated := true }))
    ∧ (∀ (now : Nat) (st : Store), st.approved = [] →
        (rotatePuzzleLogic now st).display = st.display) := by
  constructor
  · intro now st h1 h2
    simp only [checkAndRotatePublic, displayExpired, h1]
    simp only [rotatePuzzleLogic, archiveCurrent, h1, h2, dequeueOldest]
    simp
  · exact fun now st h => rotate_queue_empty_display now st h

/-- Witness for C6 (amended): the empty store is returned unchanged with
`{rotated: true}`, and the expired display of `stExpiredEmptyQueue`
survives a rotation attempt against the empty queue. -/
theorem checkAndRotatePublic_queue_empty_witness :
    emptyStore.display = none
    ∧ emptyStore.approved = []
    ∧ checkAndRotatePublic 100 emptyStore = (emptyStore, { rotated := true })
    ∧ stExpiredEmptyQueue.approved = []
    ∧ (rotatePuzzleLogic 100 stExpiredEmptyQueue).display =
        stExpiredEmptyQueue.display :=
  ⟨rfl, rfl,
   checkAndRotatePublic_queue_empty.1 100 emptyStore rfl rfl,
   rfl,
   checkAndRotatePublic_queue_empty.2 100 stExpiredEmptyQueue rfl⟩

/-- C7 counterexample: a second submission from the same IP returns exactly
the same response as the first, counted one — `{success: true}` — so a
dedup hit is *not* distinguishable from a counted submission and no
`accepted: false` response exists. -/
theorem submitSolution_duplicate_response_cex :
    (submitSolution (some "1.2.3.4") "0" 2
        (submitSolution (some "1.2.3.4") "0" 1 emptyStore).1).2 =
      (submitSolution (some "1.2.3.4") "0" 1 emptyStore).2
    ∧ (submitSolution (some "1.2.3.4") "0" 2
        (submitSolution (some "1.2.3.4") "0" 1 emptyStore).1).2.success = true := by
  decide

/-- C7 (amended): a submission from a participant whose dedup marker
already exists mutates no counter and no state at all, but returns
`{success: true}`, indistinguishable from a first, counted submission. -/
theorem submitSolution_duplicate_noop (ip : Option String) (d : String)
    (t : Nat) (st : Store)
    (h : (mapFind st.solvers (md5Hex (ip.getD "unknown"))).isSome) :
    submitSolution ip d t st = (st, { success := true }) := by
  show (submitSolutionTxn (md5Hex (ip.getD "unknown")) d t st,
    ({ success := true } : SubmitResponse)) = (st, { success := true })
  rw [submitTxn_marked _ _ _ _ h]

/-- Witness for C7 (amended): the anonymous caller's marker is present in
`stMarkedUnknown`, and their repeat submission is a state no-op answered
`{success: true}`. -/
theorem submitSolution_duplicate_noop_witness :
    (mapFind stMarkedUnknown.solvers
      (md5Hex ((none : Option String).getD "unknown"))).isSome
    ∧ submitSolution none "7" 9 stMarkedUnknown =
        (stMarkedUnknown, { success := true }) :=
  ⟨by decide,
   submitSolution_duplicate_noop none "7" 9 stMarkedUnknown (by decide)⟩

/-- C8: after a successful rotation at `now0` (the queue had a head `e`),
any public rotation check at an instant `now` not past the freshly stored
expiry is a pure no-op: it returns `{rotated: false}` and leaves the
display, queue, archive and stats exactly as the rotation wrote them. -/
theorem checkAndRotatePublic_noop_until_expiry (now0 : Nat) (st : Store)
    (e : ApprovedEntry) (h : dequeueOldest st.approved = some e)
    (now : Nat) (hle : now ≤ (getTodayISTBounds now0).dayEnd) :
    checkAndRotatePublic now (rotatePuzzleLogic now0 st) =
      (rotatePuzzleLogic now0 st, { rotated := false }) := by
  obtain ⟨hdisp, _, _, _⟩ := rotate_installed now0 st e h
  simp only [checkAndRotatePublic, displayExpired, hdisp, mkDisplayDoc]
  simp [Nat.not_lt.mpr hle]

/-- Witness for C8: rotate `stCycle` at `now0 = 100` (expiry becomes
86399999) and re-check at `now = 500`: no-op with `{rotated: false}`. -/
theorem checkAndRotatePublic_noop_until_expiry_witness :
    dequeueOldest stCycle.approved = some ⟨"b", pzB⟩
    ∧ 500 ≤ (getTodayISTBounds 100).dayEnd
    ∧ checkAndRotatePublic 500 (rotatePuzzleLogic 100 stCycle) =
        (rotatePuzzleLogic 100 stCycle, { rotated := false }) :=
  ⟨by decide, by decide,
   checkAndRotatePublic_noop_until_expiry 100 stCycle ⟨"b", pzB⟩ (by decide)
     500 (by decide)⟩

/-- C9: `submitSolution` never validates the caller-supplied `clueIndex`:
for *every* key `k` (JS object keys are strings, so negative, out-of-range
and non-numeric values are all just keys), a first-time participant's call
creates/increments `clueCounts[k]` and records the marker, so the stats
mapping can contain arbitrary caller-chosen keys. -/
theorem submitSolution_arbitrary_clue_key (k p : String) (t : Nat)
    (st : Store) (h : mapFind st.solvers p = none) :
    clueCountGet (submitSolutionTxn p k t st) k = clueCountGet st k + 1
    ∧ mapFind (submitSolutionTxn p k t st).solvers p = some ⟨t, k⟩ := by
  obtain ⟨_, hc, hm⟩ := submitTxn_fresh p k t st h
  exact ⟨hc, hm⟩

/-- Witness for C9 with the out-of-range key `"-1"`: a fresh participant's
call creates the `"-1"` counter at `1`. -/
theorem submitSolution_arbitrary_clue_key_witness :
    mapFind emptyStore.solvers "h7" = none
    ∧ (clueCountGet (submitSolutionTxn "h7" "-1" 3 emptyStore) "-1" =
          clueCountGet emptyStore "-1" + 1
        ∧ mapFind (submitSolutionTxn "h7" "-1" 3 emptyStore).solvers "h7" =
            some ⟨3, "-1"⟩) :=
  ⟨rfl, submitSolution_arbitrary_clue_key "-1" "h7" 3 emptyStore rfl⟩

/-- C10: the dedup identity is the MD5 hex digest of the caller's IP (the
literal string `'unknown'` when no IP is available) — the embedded digest
of `'unknown'` matches the real MD5 — so every caller behind one IP maps
to the same participant identity and a whole sequence of submissions from
one IP increments the counters by at most 1: two distinct people behind
the same IP cannot both be counted. -/
theorem submitSolution_dedup_by_ip_hash :
    md5Hex "unknown" = "ad921d60486366258809553a3db49a4a"
    ∧ (∀ (ip : Option String) (calls : List (String × Nat)) (st : Store),
        applySubmitsIp ip calls st =
          applySubmits (md5Hex (ip.getD "unknown")) calls st)
    ∧ (∀ (ip : Option String) (calls : List (String × Nat)) (st : Store),
        statsTotal (applySubmitsIp ip calls st) ≤ statsTotal st + 1) := by
  refine ⟨by decide, fun ip calls st => rfl, fun ip calls st => ?_⟩
  have h : applySubmitsIp ip calls st =
      applySubmits (md5Hex (ip.getD "unknown")) calls st := rfl
  rw [h]
  exact applySubmits_total_le _ calls st
